import Mathlib

/-!
Verification development for the input-wrapper userspace helper
(`src/virtual_controller.c`, with `src/wrap.c` a reduced variant).

The program is modelled as a shallow embedding: each C function that the
claims mention becomes a Lean function from an explicit environment (the
results the kernel would hand back from each `ioctl`/`read`/`write` call)
to its C return value together with the list of externally visible
operations it issues, in order.  The operation lists let us state "issues
exactly one EVIOCSFF", "no write to the physical FF device", and so on.
-/

/- Kernel constants from linux/input-event-codes.h, linux/input.h and
linux/uinput.h used by the program. -/

def EV_SYN : Nat := 0
def EV_KEY : Nat := 1
def EV_ABS : Nat := 3
def EV_FF : Nat := 21
def EV_UINPUT : Nat := 257

def UI_FF_UPLOAD : Nat := 1
def UI_FF_ERASE : Nat := 2

def FF_RUMBLE : Nat := 0x50
def FF_PERIODIC : Nat := 0x51
def FF_SQUARE : Nat := 0x58
def FF_TRIANGLE : Nat := 0x59
def FF_SINE : Nat := 0x5a
def FF_GAIN : Nat := 0x60

def BUS_HOST : Nat := 0x19

def ABS_MAX : Nat := 0x3f
def KEY_MAX : Nat := 0x2ff

/- Program constants from virtual_controller.c. -/

def MAX_FF_EFFECTS : Nat := 16
def MAX_KEY_DEVS : Nat := 8

/- errno values used by the program (returned negated). -/

def ENODEV : Int := 19
def EIO_errno : Int := 5

/-- Size in bytes of `struct input_event` on a 64-bit target; `read` and
`write` of one event record are compared against this. -/
def sizeof_input_event : Int := 24

/-- One `struct input_event` record: type, code (both `__u16`), value
(`__s32`) and the timestamp words.  The timestamp is carried along so that
forwarding a record verbatim is visible in the model. -/
structure InputEvent where
  type : Nat
  code : Nat
  value : Int
  time : Nat
deriving DecidableEq

/-- One `struct ff_effect`.  The program only ever touches the `id` field;
every other field is carried opaquely in `rest`. -/
structure FFEffect where
  id : Int
  rest : Nat
deriving DecidableEq

/-- The `struct input_absinfo` calibration tuple returned by EVIOCGABS. -/
structure AbsInfo where
  value : Int
  minimum : Int
  maximum : Int
  fuzz : Int
  flat : Int
  resolution : Int
deriving DecidableEq

/-- Externally visible operations the event handlers issue, in program
order.  `beginUpload`, `endUpload`, `beginErase`, `endErase` and
`writeVirtual` act on the uinput (virtual device) descriptor; `setEffect`
(EVIOCSFF), `rmEffect` (EVIOCRMFF) and `writePhysFF` act on the physical
force-feedback descriptor. -/
inductive SysOp where
  | writeVirtual (ev : InputEvent)
  | beginUpload (requestId : Int)
  | setEffect (e : FFEffect)
  | endUpload (requestId : Int) (retval : Int)
  | beginErase (requestId : Int)
  | rmEffect (effectId : Int)
  | endErase (requestId : Int) (retval : Int)
  | writePhysFF (ev : InputEvent)
deriving DecidableEq

/-- An operation directed at the physical force-feedback descriptor
(`v_dev->ff_fd`). -/
def SysOp.targetsPhysFF : SysOp → Bool
  | SysOp.setEffect _ => true
  | SysOp.rmEffect _ => true
  | SysOp.writePhysFF _ => true
  | _ => false

def SysOp.isSetEffect : SysOp → Bool
  | SysOp.setEffect _ => true
  | _ => false

def SysOp.isEndUpload : SysOp → Bool
  | SysOp.endUpload _ _ => true
  | _ => false

def SysOp.isRmEffect : SysOp → Bool
  | SysOp.rmEffect _ => true
  | _ => false

def SysOp.isEndErase : SysOp → Bool
  | SysOp.endErase _ _ => true
  | _ => false

/-- Kernel-side results for the three ioctls of one upload transaction:
the return value of UI_BEGIN_FF_UPLOAD together with the effect it stages
into the payload, the return value of EVIOCSFF on the physical device, and
the return value of UI_END_FF_UPLOAD. -/
structure UploadEnv where
  beginRet : Int
  stagedEffect : FFEffect
  setEffectRet : Int
  endRet : Int
deriving DecidableEq

/-- Model of `handle_uinput_ff_upload` (virtual_controller.c:289, and
identically wrap.c:152).  `evValue` is `ev.value`, the kernel-assigned
request id.  Returns the C return value and the issued operations. -/
def handle_uinput_ff_upload (env : UploadEnv) (evValue : Int) :
    Int × List SysOp :=
  if env.beginRet ≠ 0 then
    (env.beginRet, [SysOp.beginUpload evValue])
  else
    let effect : FFEffect := { env.stagedEffect with id := -1 }
    if env.setEffectRet ≠ 0 then
      (env.setEffectRet, [SysOp.beginUpload evValue, SysOp.setEffect effect])
    else
      if env.endRet ≠ 0 then
        (env.endRet,
         [SysOp.beginUpload evValue, SysOp.setEffect effect,
          SysOp.endUpload evValue env.setEffectRet])
      else
        (0,
         [SysOp.beginUpload evValue, SysOp.setEffect effect,
          SysOp.endUpload evValue env.setEffectRet])

/-- Kernel-side results for the three ioctls of one erase transaction:
the return value of UI_BEGIN_FF_ERASE together with the effect id it
reports, the return value of EVIOCRMFF, and the return value of
UI_END_FF_ERASE. -/
structure EraseEnv where
  beginRet : Int
  effectId : Int
  rmRet : Int
  endRet : Int
deriving DecidableEq

/-- Model of `handle_uinput_ff_erase` (virtual_controller.c:327, and
identically wrap.c:190). -/
def handle_uinput_ff_erase (env : EraseEnv) (evValue : Int) :
    Int × List SysOp :=
  if env.beginRet ≠ 0 then
    (env.beginRet, [SysOp.beginErase evValue])
  else
    if env.rmRet ≠ 0 then
      (env.rmRet, [SysOp.beginErase evValue, SysOp.rmEffect env.effectId])
    else
      if env.endRet ≠ 0 then
        (env.endRet,
         [SysOp.beginErase evValue, SysOp.rmEffect env.effectId,
          SysOp.endErase evValue env.rmRet])
      else
        (0,
         [SysOp.beginErase evValue, SysOp.rmEffect env.effectId,
          SysOp.endErase evValue env.rmRet])

/-- C conversion of an `int` to `__u16`, as happens when `ev.value` is
passed to `set_ff_gain`'s `gain` parameter. -/
def toU16 (v : Int) : Int := v.emod 65536

/-- Model of `set_ff_gain` (virtual_controller.c:359).  `writeRet` is the
byte count the `write` call reports.  The event written carries
type EV_FF, code FF_GAIN and the gain value; its timestamp is the zero
left by the designated initializer. -/
def set_ff_gain (writeRet : Int) (gain : Int) : Int × List SysOp :=
  (if writeRet ≠ sizeof_input_event then -EIO_errno else 0,
   [SysOp.writePhysFF { type := EV_FF, code := FF_GAIN, value := gain, time := 0 }])

/-- Model of `set_ff_effect_status` (virtual_controller.c:389). -/
def set_ff_effect_status (writeRet : Int) (effect : Nat) (status : Int) :
    Int × List SysOp :=
  (if writeRet ≠ sizeof_input_event then -EIO_errno else 0,
   [SysOp.writePhysFF { type := EV_FF, code := effect, value := status, time := 0 }])

/-- Model of `handle_ff_events` (virtual_controller.c:419): dispatch of an
EV_FF event read from the virtual device by its code.  `code` is
`ev.code` (a `__u16`), `value` is `ev.value`. -/
def handle_ff_events (writeRet : Int) (code : Nat) (value : Int) :
    Int × List SysOp :=
  if code = FF_GAIN then
    set_ff_gain writeRet (toU16 value)
  else
    if code ≤ FF_GAIN then
      set_ff_effect_status writeRet code value
    else
      (0, [])

/-- Environment of one `parse_ev_incoming` invocation: the byte count the
`read` call reports, the event record left in the buffer, and the kernel
results for whatever sub-handler the event reaches. -/
structure DispatchEnv where
  readLen : Int
  ev : InputEvent
  uploadEnv : UploadEnv
  eraseEnv : EraseEnv
  ffWriteRet : Int
deriving DecidableEq

/-- Model of `parse_ev_incoming` (virtual_controller.c:443): read one
event record from `fd_in` and dispatch it.  The function is `void`; the
model returns the operations issued.  The C switch groups EV_SYN, EV_ABS
and EV_KEY into one forwarding arm guarded by `uinput_fd != fd_in`;
EV_UINPUT events reach the upload/erase transactions by code; EV_FF events
reach `handle_ff_events` only when they come from the uinput descriptor;
everything else is logged and dropped.  A read result of -1 only logs. -/
def parse_ev_incoming (env : DispatchEnv) (uinput_fd fd_in : Int) :
    List SysOp :=
  if env.readLen ≠ -1 then
    if env.ev.type = EV_SYN ∨ env.ev.type = EV_ABS ∨ env.ev.type = EV_KEY then
      if uinput_fd ≠ fd_in then [SysOp.writeVirtual env.ev] else []
    else
      if env.ev.type = EV_UINPUT then
        if env.ev.code = UI_FF_UPLOAD then
          (handle_uinput_ff_upload env.uploadEnv env.ev.value).2
        else
          if env.ev.code = UI_FF_ERASE then
            (handle_uinput_ff_erase env.eraseEnv env.ev.value).2
          else []
      else
        if env.ev.type = EV_FF then
          if uinput_fd = fd_in then
            (handle_ff_events env.ffWriteRet env.ev.code env.ev.value).2
          else []
        else []
  else []

/-- Setup-time operations issued against the uinput descriptor while the
composite virtual device is being built. -/
inductive SetupOp where
  | setEvBit (evType : Nat)
  | setAbsBit (axis : Nat)
  | absSetup (axis : Nat) (info : AbsInfo)
  | setKeyBit (code : Nat)
  | setFFBit (effectType : Nat)
  | devSetup (ffEffectsMax : Nat)
  | devCreate
deriving DecidableEq

/-- Kernel-side results for `enumerate_abs_device`: the EVIOCGBIT result,
the per-axis ABS capability bits, and per-axis results and data of
EVIOCGABS and of the two uinput setup ioctls. -/
structure AbsEnv where
  gbitRet : Int
  absBits : Nat → Bool
  gabsRet : Nat → Int
  gabsInfo : Nat → AbsInfo
  setAbsBitRet : Nat → Int
  absSetupRet : Nat → Int

/-- Operations the `i`-th iteration of the axis loop of
`enumerate_abs_device` issues: nothing when the axis bit is clear or
EVIOCGABS fails; UI_SET_ABSBIT alone when that ioctl fails; otherwise
UI_SET_ABSBIT followed by UI_ABS_SETUP carrying the tuple just read
(a UI_ABS_SETUP failure is only logged). -/
def absAxisOps (env : AbsEnv) (i : Nat) : List SetupOp :=
  if env.absBits i then
    if env.gabsRet i ≠ 0 then []
    else
      if env.setAbsBitRet i ≠ 0 then [SetupOp.setAbsBit i]
      else [SetupOp.setAbsBit i, SetupOp.absSetup i (env.gabsInfo i)]
  else []

/-- Model of `enumerate_abs_device` (virtual_controller.c:71).  `abs_fd`
not positive returns 0 at once; an EVIOCGBIT failure returns -ENODEV;
otherwise the axis loop runs over axes 0 .. ABS_MAX-1 and the function
returns 0. -/
def enumerate_abs_device (env : AbsEnv) (abs_fd : Int) :
    Int × List SetupOp :=
  if abs_fd ≤ 0 then (0, [])
  else
    if env.gbitRet < 0 then (-ENODEV, [])
    else (0, (List.range ABS_MAX).flatMap (absAxisOps env))

/-- State consulted by `enumerate_key_devices`: the key-device descriptor
slots `v_dev->key_fd[0..MAX_KEY_DEVS-1]` and, for slot `k`, the key
capability bitmask EVIOCGBIT(EV_KEY) reports on that slot's descriptor. -/
structure KeyEnv where
  key_fd : Nat → Int
  keyMask : Nat → Nat → Bool

/-- Key codes the `k`-th iteration of the device loop of
`enumerate_key_devices` advertises: UI_SET_KEYBIT for each bit set in the
mask, over codes 0 .. KEY_MAX-1. -/
def keyDevOps (env : KeyEnv) (k : Nat) : List SetupOp :=
  (List.range KEY_MAX).flatMap fun i =>
    if env.keyMask k i then [SetupOp.setKeyBit i] else []

/-- Number of set bits the `k`-th iteration counts into `keys`. -/
def keyDevCount (env : KeyEnv) (k : Nat) : Nat :=
  ((List.range KEY_MAX).filter fun i => env.keyMask k i).length

/-- The `dev_count` computed by the first loop of
`enumerate_key_devices`: the number of slots holding a positive
descriptor. -/
def keyDevsRetained (env : KeyEnv) : Nat :=
  ((List.range MAX_KEY_DEVS).filter fun d => 0 < env.key_fd d).length

/-- Model of `enumerate_key_devices` (virtual_controller.c:115): count the
slots holding a positive descriptor, then for each slot index below that
count advertise every reported key code, accumulating `keys` once per
(device, code) pair.  Returns `keys` and the issued operations. -/
def enumerate_key_devices (env : KeyEnv) : Nat × List SetupOp :=
  (((List.range (keyDevsRetained env)).map (keyDevCount env)).sum,
   (List.range (keyDevsRetained env)).flatMap (keyDevOps env))

/-- The key codes named by the UI_SET_KEYBIT operations of a setup trace,
in order and with multiplicity. -/
def keyBitCodes (ops : List SetupOp) : List Nat :=
  ops.flatMap fun op =>
    match op with
    | SetupOp.setKeyBit i => [i]
    | _ => []

/-- The retained-descriptor fields of `struct virtual_device` that
`create_uinput_device` consults: the single FF and ABS descriptors and
the key descriptor slots (all zero-initialized by `main`, set by
`iterate_input_devices`). -/
structure VDev where
  ff_fd : Int
  abs_fd : Int
  key_fd : Nat → Int

/-- Kernel-side results for `create_uinput_device`: the `/dev/uinput`
open result, the UI_SET_EVBIT result per event type, the environments of
the two enumeration helpers it calls, and the UI_DEV_SETUP and
UI_DEV_CREATE results. -/
structure CreateEnv where
  uinputOpenFd : Int
  setEvBitRet : Nat → Int
  absEnv : AbsEnv
  keyMask : Nat → Nat → Bool
  setupRet : Int
  createRet : Int

/-- The ABS conditional of `create_uinput_device` (lines 226-233): when an
ABS descriptor was retained, declare EV_ABS (aborting on failure) and run
`enumerate_abs_device`, propagating its result. -/
def absBlock (env : CreateEnv) (v : VDev) : Int × List SetupOp :=
  if 0 < v.abs_fd then
    if env.setEvBitRet EV_ABS ≠ 0 then
      (env.setEvBitRet EV_ABS, [SetupOp.setEvBit EV_ABS])
    else
      ((enumerate_abs_device env.absEnv v.abs_fd).1,
       SetupOp.setEvBit EV_ABS :: (enumerate_abs_device env.absEnv v.abs_fd).2)
  else (0, [])

/-- The KEY conditional of `create_uinput_device` (lines 235-244): when
slot 0 holds a key descriptor, declare EV_KEY (aborting on failure) and
run `enumerate_key_devices`; a key count of zero is -ENODEV. -/
def keyBlock (env : CreateEnv) (v : VDev) : Int × List SetupOp :=
  if 0 < v.key_fd 0 then
    if env.setEvBitRet EV_KEY ≠ 0 then
      (env.setEvBitRet EV_KEY, [SetupOp.setEvBit EV_KEY])
    else
      if 0 < (enumerate_key_devices ⟨v.key_fd, env.keyMask⟩).1 then
        (0, SetupOp.setEvBit EV_KEY ::
              (enumerate_key_devices ⟨v.key_fd, env.keyMask⟩).2)
      else
        (-ENODEV, SetupOp.setEvBit EV_KEY ::
              (enumerate_key_devices ⟨v.key_fd, env.keyMask⟩).2)
  else (0, [])

/-- The FF conditional of `create_uinput_device` (lines 246-259): when an
FF descriptor was retained, declare EV_FF (aborting on failure), then set
the six fixed effect-type bits (results ignored) and record the fixed
effect-slot maximum into `usetup.ff_effects_max`; otherwise that field
keeps its zero initialization. -/
def ffBlock (env : CreateEnv) (v : VDev) : Int × List SetupOp × Nat :=
  if 0 < v.ff_fd then
    if env.setEvBitRet EV_FF ≠ 0 then
      (env.setEvBitRet EV_FF, [SetupOp.setEvBit EV_FF], 0)
    else
      (0,
       [SetupOp.setEvBit EV_FF, SetupOp.setFFBit FF_RUMBLE,
        SetupOp.setFFBit FF_GAIN, SetupOp.setFFBit FF_PERIODIC,
        SetupOp.setFFBit FF_SINE, SetupOp.setFFBit FF_TRIANGLE,
        SetupOp.setFFBit FF_SQUARE],
       MAX_FF_EFFECTS)
  else (0, [], 0)

/-- Model of `create_uinput_device` (virtual_controller.c:217): open the
uinput node, run the ABS, KEY and FF conditionals in that order with each
failure propagated, then issue UI_DEV_SETUP (whose payload carries
`ff_effects_max`) and UI_DEV_CREATE. -/
def create_uinput_device (env : CreateEnv) (v : VDev) :
    Int × List SetupOp :=
  if env.uinputOpenFd = -1 then (-ENODEV, [])
  else
    if (absBlock env v).1 ≠ 0 then absBlock env v
    else
      if (keyBlock env v).1 ≠ 0 then
        ((keyBlock env v).1, (absBlock env v).2 ++ (keyBlock env v).2)
      else
        if (ffBlock env v).1 ≠ 0 then
          ((ffBlock env v).1,
           (absBlock env v).2 ++ (keyBlock env v).2 ++ (ffBlock env v).2.1)
        else
          if env.setupRet ≠ 0 then
            (env.setupRet,
             (absBlock env v).2 ++ (keyBlock env v).2 ++ (ffBlock env v).2.1
               ++ [SetupOp.devSetup (ffBlock env v).2.2])
          else
            if env.createRet ≠ 0 then
              (env.createRet,
               (absBlock env v).2 ++ (keyBlock env v).2 ++ (ffBlock env v).2.1
                 ++ [SetupOp.devSetup (ffBlock env v).2.2, SetupOp.devCreate])
            else
              (0,
               (absBlock env v).2 ++ (keyBlock env v).2 ++ (ffBlock env v).2.1
                 ++ [SetupOp.devSetup (ffBlock env v).2.2, SetupOp.devCreate])

/-- The fixed allowlist `input_devs` of virtual_controller.c:56. -/
def input_devs : List String :=
  ["pwm-vibrator", "adc-joystick", "gpio-keys-control", "gpio-keys-vol",
   "adc-keys"]

/-- What the scan observes at one `/dev/input/eventN` node: whether the
read-only open succeeds, the EVIOCGNAME name, and the EVIOCGBIT(0)
event-type bitmask.  The descriptor values the reopens store are not
needed by any claim and are elided. -/
structure InputNode where
  present : Bool
  name : String
  evbit : Nat
deriving DecidableEq

/-- Running state of `iterate_input_devices`: the returned `count` and the
`key_devs` slot cursor. -/
structure ScanState where
  count : Nat
  key_devs : Nat
deriving DecidableEq

/-- Body of the allowlist loop of `iterate_input_devices` (lines 170-199)
for one allowlist entry `nm`: on a name match, each supported role (FF,
ABS, KEY) is bound and bumps `count` by one, KEY only while slots
remain. -/
def scanMatch (node : InputNode) (st : ScanState) (nm : String) :
    ScanState :=
  if node.name = nm then
    let st1 := if node.evbit.testBit EV_FF then
                 { st with count := st.count + 1 } else st
    let st2 := if node.evbit.testBit EV_ABS then
                 { st1 with count := st1.count + 1 } else st1
    if node.evbit.testBit EV_KEY then
      if MAX_KEY_DEVS ≤ st2.key_devs then st2
      else { st2 with count := st2.count + 1, key_devs := st2.key_devs + 1 }
    else st2
  else st

/-- One iteration of the node loop of `iterate_input_devices`: a node
whose open fails is skipped, otherwise every allowlist entry is compared
against its name. -/
def scanNode (st : ScanState) (node : InputNode) : ScanState :=
  if node.present then input_devs.foldl (scanMatch node) st else st

/-- Model of `iterate_input_devices` (virtual_controller.c:154): scan
nodes 0 .. 255 and return the final `count`.  `main` (line 556) treats a
zero return as the fatal no-devices condition. -/
def iterate_input_devices (nodes : Nat → InputNode) : Nat :=
  ((List.range 256).foldl (fun st i => scanNode st (nodes i)) ⟨0, 0⟩).count

/- Concrete instances used by witnesses and counterexamples. -/

/-- A staged effect descriptor with a kernel-assigned id of 3. -/
def effStaged : FFEffect := ⟨3, 42⟩

/-- Upload transaction in which every ioctl succeeds. -/
def uploadEnvOk : UploadEnv := ⟨0, effStaged, 0, 0⟩

/-- Upload transaction in which EVIOCSFF on the physical device fails. -/
def uploadEnvSetFail : UploadEnv := ⟨0, effStaged, -ENODEV, 0⟩

/-- Erase transaction in which every ioctl succeeds, targeting effect 5. -/
def eraseEnvOk : EraseEnv := ⟨0, 5, 0, 0⟩

/-- Erase transaction in which UI_BEGIN_FF_ERASE fails with -EFAULT. -/
def eraseEnvBeginFail : EraseEnv := ⟨-14, 5, 0, 0⟩

/-- A key event as read from a physical key device. -/
def evKeyFwd : InputEvent := ⟨EV_KEY, 30, 1, 99⟩

/-- Dispatch of `evKeyFwd` after a full 24-byte read. -/
def denvFwd : DispatchEnv := ⟨24, evKeyFwd, uploadEnvOk, eraseEnvOk, 24⟩

/-- Dispatch after a short read of 8 bytes (fewer than one record). -/
def denvShort : DispatchEnv := ⟨8, evKeyFwd, uploadEnvOk, eraseEnvOk, 24⟩

/-- Dispatch after a failed read (-1). -/
def denvFailRead : DispatchEnv := ⟨-1, evKeyFwd, uploadEnvOk, eraseEnvOk, 24⟩

/-- ABS device environment advertising a single axis (code 2) with a
concrete calibration tuple; every ioctl succeeds. -/
def absEnvOne : AbsEnv :=
  ⟨8, fun i => i == 2, fun _ => 0, fun _ => ⟨0, -100, 100, 2, 4, 8⟩,
   fun _ => 0, fun _ => 0⟩

/-- Two retained key devices (slots 0 and 1): the first reports codes
{2, 3, 30}, the second {30, 31}. -/
def envTwoKeys : KeyEnv :=
  ⟨fun k => if k < 2 then 3 else 0,
   fun k i =>
     if k = 0 then (i == 2) || (i == 3) || (i == 30)
     else if k = 1 then (i == 30) || (i == 31)
     else false⟩

/-- One retained key device (slot 0) whose capability bitmask reports
only code KEY_MAX (0x2ff, bit 767 of the queried 96-byte buffer). -/
def envKeyMaxOnly : KeyEnv :=
  ⟨fun k => if k = 0 then 3 else 0,
   fun k i => (k == 0) && (i == KEY_MAX)⟩

/-- Virtual-device creation environment in which every ioctl succeeds and
no ABS axis or key mask is reported. -/
def createEnvOk : CreateEnv :=
  ⟨5, fun _ => 0,
   ⟨8, fun _ => false, fun _ => 0, fun _ => ⟨0, 0, 0, 0, 0, 0⟩,
    fun _ => 0, fun _ => 0⟩,
   fun _ _ => false, 0, 0⟩

/-- A device state in which only a physical FF descriptor was retained. -/
def vdevFFOnly : VDev := ⟨3, 0, fun _ => 0⟩

/-- A device node whose open fails (sparse node range). -/
def absentNode : InputNode := ⟨false, "", 0⟩

/-- A scan input with a single present node at event0 named `nm`, whose
event-type mask has the FF, ABS and KEY bits as given. -/
def singleNode (nm : String) (ff hasAbs hasKey : Bool) :
    Nat → InputNode :=
  fun i =>
    if i = 0 then
      ⟨true, nm,
       (if ff then 2 ^ EV_FF else 0) + (if hasAbs then 2 ^ EV_ABS else 0)
         + (if hasKey then 2 ^ EV_KEY else 0)⟩
    else absentNode

/- Claim theorems. -/

/-- C1 (counterexample): the claim "no upload transaction ends without a
completion reply" is false on the code.  When EVIOCSFF fails (here with
-ENODEV), `handle_uinput_ff_upload` returns that error at once: the trace
contains the set-effect call but zero UI_END_FF_UPLOAD replies, not
exactly one. -/
theorem C1_upload_cex :
    ((handle_uinput_ff_upload uploadEnvSetFail 7).2.countP
        SysOp.isEndUpload = 0)
    ∧ (handle_uinput_ff_upload uploadEnvSetFail 7).1 = -ENODEV
    ∧ ((handle_uinput_ff_upload uploadEnvSetFail 7).2.countP
        SysOp.isSetEffect = 1) := by
  decide

/-- C1 (amended): when UI_BEGIN_FF_UPLOAD and EVIOCSFF both succeed, the
handler issues exactly one EVIOCSFF whose effect is the staged effect with
its id field cleared to -1 and exactly one UI_END_FF_UPLOAD whose retval
field carries the physical device's set-effect return code; when a step
fails, the transaction aborts with that error propagated and no completion
reply (and a BEGIN failure also means no set-effect call). -/
theorem C1_upload_transaction (env : UploadEnv) (v : Int) :
    (env.beginRet = 0 → env.setEffectRet = 0 →
       (handle_uinput_ff_upload env v).2 =
         [SysOp.beginUpload v,
          SysOp.setEffect { env.stagedEffect with id := -1 },
          SysOp.endUpload v env.setEffectRet])
    ∧ (env.beginRet = 0 → env.setEffectRet ≠ 0 →
       (handle_uinput_ff_upload env v).1 = env.setEffectRet
       ∧ (handle_uinput_ff_upload env v).2 =
           [SysOp.beginUpload v,
            SysOp.setEffect { env.stagedEffect with id := -1 }])
    ∧ (env.beginRet ≠ 0 →
       (handle_uinput_ff_upload env v).1 = env.beginRet
       ∧ (handle_uinput_ff_upload env v).2 = [SysOp.beginUpload v]) := by
  refine ⟨fun h1 h2 => ?_, fun h1 h2 => ?_, fun h1 => ?_⟩
  · by_cases h3 : env.endRet = 0 <;>
      simp [handle_uinput_ff_upload, h1, h2, h3]
  · simp [handle_uinput_ff_upload, h1, h2]
  · simp [handle_uinput_ff_upload, h1]

/-- C1 (witness): a fully successful upload transaction produces exactly
the begin, set-effect (id cleared) and completion operations. -/
theorem C1_upload_witness :
    (handle_uinput_ff_upload uploadEnvOk 7).2 =
      [SysOp.beginUpload 7, SysOp.setEffect ⟨-1, 42⟩,
       SysOp.endUpload 7 0] :=
  (C1_upload_transaction uploadEnvOk 7).1 rfl rfl

/-- C2 (counterexample): when UI_BEGIN_FF_ERASE fails (here with -EFAULT)
the handler returns at once: zero EVIOCRMFF calls and zero UI_END_FF_ERASE
replies are issued, not exactly one of each as the claim states for every
erase request event. -/
theorem C2_erase_cex :
    ((handle_uinput_ff_erase eraseEnvBeginFail 9).2.countP
        SysOp.isRmEffect = 0)
    ∧ ((handle_uinput_ff_erase eraseEnvBeginFail 9).2.countP
        SysOp.isEndErase = 0)
    ∧ (handle_uinput_ff_erase eraseEnvBeginFail 9).1 = -14 := by
  decide

/-- C2 (amended): when UI_BEGIN_FF_ERASE and EVIOCRMFF both succeed, the
handler issues exactly one EVIOCRMFF for the effect id obtained from
UI_BEGIN_FF_ERASE and exactly one UI_END_FF_ERASE whose retval carries the
remove-effect return code; when a step fails, the transaction aborts with
that error propagated and no completion reply (and a BEGIN failure also
means no remove-effect call). -/
theorem C2_erase_transaction (env : EraseEnv) (v : Int) :
    (env.beginRet = 0 → env.rmRet = 0 →
       (handle_uinput_ff_erase env v).2 =
         [SysOp.beginErase v, SysOp.rmEffect env.effectId,
          SysOp.endErase v env.rmRet])
    ∧ (env.beginRet = 0 → env.rmRet ≠ 0 →
       (handle_uinput_ff_erase env v).1 = env.rmRet
       ∧ (handle_uinput_ff_erase env v).2 =
           [SysOp.beginErase v, SysOp.rmEffect env.effectId])
    ∧ (env.beginRet ≠ 0 →
       (handle_uinput_ff_erase env v).1 = env.beginRet
       ∧ (handle_uinput_ff_erase env v).2 = [SysOp.beginErase v]) := by
  refine ⟨fun h1 h2 => ?_, fun h1 h2 => ?_, fun h1 => ?_⟩
  · by_cases h3 : env.endRet = 0 <;>
      simp [handle_uinput_ff_erase, h1, h2, h3]
  · simp [handle_uinput_ff_erase, h1, h2]
  · simp [handle_uinput_ff_erase, h1]

/-- C2 (witness): a fully successful erase transaction for effect id 5
produces exactly the begin, remove-effect and completion operations. -/
theorem C2_erase_witness :
    (handle_uinput_ff_erase eraseEnvOk 9).2 =
      [SysOp.beginErase 9, SysOp.rmEffect 5, SysOp.endErase 9 0] :=
  (C2_erase_transaction eraseEnvOk 9).1 rfl rfl

/-- C3 (counterexample): the claim "for any other FF code it performs
exactly one write" is false on the code: code 0x61 (FF_AUTOCENTER, the
first code above FF_GAIN) falls through both branches of
`handle_ff_events` and no write at all is issued.  Also, the gain write
does not carry the event's value verbatim: value 65537 is truncated to 1
by the `__u16 gain` parameter. -/
theorem C3_relay_cex :
    (handle_ff_events 24 97 1).2 = []
    ∧ (handle_ff_events 24 FF_GAIN 65537).2 =
        [SysOp.writePhysFF ⟨EV_FF, FF_GAIN, 1, 0⟩] := by
  decide

/-- C3 (amended): an EV_FF event with code FF_GAIN yields exactly one
write of a gain-type event carrying the event's value truncated to 16
bits; a code below FF_GAIN yields exactly one write of the event's value
against that code as an effect id; a code above FF_GAIN yields no write
and success; a write whose byte count differs from the event-record size
makes the handler return -EIO. -/
theorem C3_relay (writeRet : Int) (code : Nat) (value : Int) :
    (code = FF_GAIN →
       (handle_ff_events writeRet code value).2 =
         [SysOp.writePhysFF ⟨EV_FF, FF_GAIN, toU16 value, 0⟩]
       ∧ (writeRet ≠ sizeof_input_event →
            (handle_ff_events writeRet code value).1 = -EIO_errno)
       ∧ (writeRet = sizeof_input_event →
            (handle_ff_events writeRet code value).1 = 0))
    ∧ (code < FF_GAIN →
       (handle_ff_events writeRet code value).2 =
         [SysOp.writePhysFF ⟨EV_FF, code, value, 0⟩]
       ∧ (writeRet ≠ sizeof_input_event →
            (handle_ff_events writeRet code value).1 = -EIO_errno)
       ∧ (writeRet = sizeof_input_event →
            (handle_ff_events writeRet code value).1 = 0))
    ∧ (FF_GAIN < code →
       (handle_ff_events writeRet code value).2 = []
       ∧ (handle_ff_events writeRet code value).1 = 0) := by
  refine ⟨fun h1 => ?_, fun h1 => ?_, fun h1 => ?_⟩
  · refine ⟨?_, fun h2 => ?_, fun h2 => ?_⟩ <;>
      simp_all [handle_ff_events, set_ff_gain]
  · have hne : code ≠ FF_GAIN := Nat.ne_of_lt h1
    refine ⟨?_, fun h2 => ?_, fun h2 => ?_⟩ <;>
      simp_all [handle_ff_events, set_ff_effect_status, Nat.le_of_lt h1]
  · have hne : code ≠ FF_GAIN := Nat.ne_of_gt h1
    have hnle : ¬ code ≤ FF_GAIN := Nat.not_le_of_lt h1
    constructor <;> simp [handle_ff_events, hne, hnle]

/-- C3 (witness): a gain event with in-range value 100 produces exactly
one gain write of 100 to the physical device. -/
theorem C3_relay_witness :
    (handle_ff_events 24 96 100).2 =
      [SysOp.writePhysFF ⟨EV_FF, FF_GAIN, 100, 0⟩] :=
  ((C3_relay 24 96 100).1 rfl).1

/-- C4: a SYN, ABS or KEY event successfully read from a descriptor other
than the virtual device is forwarded by exactly one write of the identical
record to the virtual device, and the same event categories read from the
virtual device itself produce no write at all. -/
theorem C4_forward (env : DispatchEnv) (u f : Int)
    (hread : env.readLen ≠ -1)
    (htype : env.ev.type = EV_SYN ∨ env.ev.type = EV_ABS
               ∨ env.ev.type = EV_KEY) :
    (u ≠ f → parse_ev_incoming env u f = [SysOp.writeVirtual env.ev])
    ∧ (u = f → parse_ev_incoming env u f = []) := by
  constructor <;> intro h <;>
    rcases htype with ht | ht | ht <;>
      simp [parse_ev_incoming, hread, ht, h]

/-- C4 (witness): the key event is forwarded once from a physical
descriptor (3) to the virtual one (7), and not echoed when it arrives on
the virtual descriptor itself. -/
theorem C4_forward_witness :
    parse_ev_incoming denvFwd 7 3 = [SysOp.writeVirtual evKeyFwd]
    ∧ parse_ev_incoming denvFwd 7 7 = [] :=
  ⟨(C4_forward denvFwd 7 3 (by decide) (Or.inr (Or.inr rfl))).1 (by decide),
   (C4_forward denvFwd 7 7 (by decide) (Or.inr (Or.inr rfl))).2 rfl⟩

/-- C9 (counterexample): the claim "a read returning fewer bytes than the
record size is not dispatched and no write is performed" is false on the
code: `parse_ev_incoming` only treats a return of -1 as a failure, so a
short read of 8 bytes (record size is 24) is dispatched and the forwarding
write is performed. -/
theorem C9_short_read_cex :
    denvShort.readLen = 8
    ∧ (8 : Int) < sizeof_input_event
    ∧ parse_ev_incoming denvShort 7 3 = [SysOp.writeVirtual evKeyFwd] := by
  decide

/-- C9 (amended): only a read returning -1 is treated as a failure: it is
logged and nothing is dispatched, no write or ioctl is issued, and the
loop continues; a short nonnegative read is not detected and is dispatched
as if it were a complete record. -/
theorem C9_failed_read (env : DispatchEnv) (u f : Int)
    (hread : env.readLen = -1) :
    parse_ev_incoming env u f = [] := by
  simp [parse_ev_incoming, hread]

/-- C9 (witness): a failed read issues no operation at all. -/
theorem C9_failed_read_witness :
    parse_ev_incoming denvFailRead 7 3 = [] :=
  C9_failed_read denvFailRead 7 3 rfl

/-- Any operation one axis iteration issues is the UI_SET_ABSBIT for that
axis or the UI_ABS_SETUP carrying the tuple read for it. -/
theorem mem_absAxisOps {env : AbsEnv} {j : Nat} {op : SetupOp}
    (h : op ∈ absAxisOps env j) :
    op = SetupOp.setAbsBit j ∨ op = SetupOp.absSetup j (env.gabsInfo j) := by
  unfold absAxisOps at h
  split_ifs at h <;> simp_all

/-- On the successful EVIOCGBIT path the trace of `enumerate_abs_device`
is the concatenation of the per-axis traces, and the return value is 0. -/
theorem enumerate_abs_device_eq (env : AbsEnv) (fd : Int)
    (hfd : 0 < fd) (hgbit : 0 ≤ env.gbitRet) :
    enumerate_abs_device env fd =
      (0, (List.range ABS_MAX).flatMap (absAxisOps env)) := by
  unfold enumerate_abs_device
  rw [if_neg (not_le.mpr hfd), if_neg (not_lt.mpr hgbit)]

/-- C5: for every axis whose calibration tuple is successfully read, the
axis is marked supported (UI_SET_ABSBIT is issued for it), any UI_ABS_SETUP
submitted for it carries exactly the tuple read from the physical device
(and is submitted whenever UI_SET_ABSBIT succeeded); an axis whose
calibration read fails contributes no operation at all; in both cases
`enumerate_abs_device` returns 0 rather than aborting. -/
theorem C5_abs_roundtrip (env : AbsEnv) (fd : Int) (i : Nat)
    (hfd : 0 < fd) (hgbit : 0 ≤ env.gbitRet) (hi : i < ABS_MAX)
    (hbit : env.absBits i = true) :
    (env.gabsRet i = 0 →
       SetupOp.setAbsBit i ∈ (enumerate_abs_device env fd).2
       ∧ (env.setAbsBitRet i = 0 →
            SetupOp.absSetup i (env.gabsInfo i) ∈
              (enumerate_abs_device env fd).2)
       ∧ (∀ info, SetupOp.absSetup i info ∈ (enumerate_abs_device env fd).2
            → info = env.gabsInfo i))
    ∧ (env.gabsRet i ≠ 0 →
       SetupOp.setAbsBit i ∉ (enumerate_abs_device env fd).2
       ∧ ∀ info, SetupOp.absSetup i info ∉ (enumerate_abs_device env fd).2)
    ∧ (enumerate_abs_device env fd).1 = 0 := by
  rw [enumerate_abs_device_eq env fd hfd hgbit]
  refine ⟨fun hread => ⟨?_, fun hsetbit => ?_, fun info hmem => ?_⟩,
          fun hread => ⟨fun hmem => ?_, fun info hmem => ?_⟩, rfl⟩
  · exact List.mem_flatMap.mpr ⟨i, List.mem_range.mpr hi,
      by by_cases h : env.setAbsBitRet i = 0 <;>
           simp [absAxisOps, hbit, hread, h]⟩
  · exact List.mem_flatMap.mpr ⟨i, List.mem_range.mpr hi,
      by simp [absAxisOps, hbit, hread, hsetbit]⟩
  · obtain ⟨j, _, hop⟩ := List.mem_flatMap.mp hmem
    rcases mem_absAxisOps hop with hc | hc
    · exact absurd hc (by simp)
    · obtain ⟨rfl, rfl⟩ : i = j ∧ info = env.gabsInfo j := by
        simpa using hc
      rfl
  · obtain ⟨j, _, hop⟩ := List.mem_flatMap.mp hmem
    rcases mem_absAxisOps hop with hc | hc
    · obtain rfl : i = j := by simpa using hc
      rw [show absAxisOps env i = [] by
        simp [absAxisOps, hbit, hread]] at hop
      exact absurd hop (List.not_mem_nil _)
    · exact absurd hc (by simp)
  · obtain ⟨j, _, hop⟩ := List.mem_flatMap.mp hmem
    rcases mem_absAxisOps hop with hc | hc
    · exact absurd hc (by simp)
    · obtain ⟨rfl, rfl⟩ : i = j ∧ info = env.gabsInfo j := by
        simpa using hc
      rw [show absAxisOps env i = [] by
        simp [absAxisOps, hbit, hread]] at hop
      exact absurd hop (List.not_mem_nil _)

/-- C5 (witness): axis 2, successfully read with tuple
(min -100, max 100, fuzz 2, flat 4, resolution 8), is marked supported and
its identical tuple is submitted. -/
theorem C5_abs_roundtrip_witness :
    SetupOp.setAbsBit 2 ∈ (enumerate_abs_device absEnvOne 4).2
    ∧ SetupOp.absSetup 2 ⟨0, -100, 100, 2, 4, 8⟩ ∈
        (enumerate_abs_device absEnvOne 4).2 :=
  ⟨((C5_abs_roundtrip absEnvOne 4 2 (by decide) (by decide) (by decide)
      rfl).1 rfl).1,
   ((C5_abs_roundtrip absEnvOne 4 2 (by decide) (by decide) (by decide)
      rfl).1 rfl).2.1 rfl⟩

/-- For a bound below the slot capacity, filtering the slot range by that
bound leaves exactly its initial segment. -/
theorem range_filter_lt (m : Nat) (hm : m ≤ MAX_KEY_DEVS) :
    ((List.range MAX_KEY_DEVS).filter fun d => decide (d < m)).length
      = m := by
  have hm8 : m ≤ 8 := hm
  interval_cases m <;> rfl

/-- When the positive key-descriptor slots are exactly the slots below
`m` (as `iterate_input_devices` fills them), the device count computed by
`enumerate_key_devices` is `m`. -/
theorem keyDevsRetained_eq (env : KeyEnv) (m : Nat)
    (hm : m ≤ MAX_KEY_DEVS)
    (hcontig : ∀ k, k < MAX_KEY_DEVS → (0 < env.key_fd k ↔ k < m)) :
    keyDevsRetained env = m := by
  unfold keyDevsRetained
  rw [List.filter_congr (fun d hd =>
    decide_eq_decide.mpr (hcontig d (List.mem_range.mp hd)))]
  exact range_filter_lt m hm

/-- UI_SET_KEYBIT for code `i` appears in one key device's trace exactly
when `i` is in loop range and that device's mask reports it. -/
theorem mem_keyDevOps_iff (env : KeyEnv) (k i : Nat) :
    SetupOp.setKeyBit i ∈ keyDevOps env k
      ↔ (i < KEY_MAX ∧ env.keyMask k i = true) := by
  unfold keyDevOps
  rw [List.mem_flatMap]
  constructor
  · rintro ⟨j, hj, hop⟩
    split_ifs at hop with hb
    · obtain rfl : i = j := by simpa using hop
      exact ⟨List.mem_range.mp hj, hb⟩
    · simp at hop
  · rintro ⟨hik, hmask⟩
    exact ⟨i, List.mem_range.mpr hik, by simp [hmask]⟩

set_option maxRecDepth 40000 in
/-- C6 (counterexample): the claimed unconditional set equality is false
on the code.  A retained key device whose capability bitmask reports code
KEY_MAX (0x2ff — a bit present in the queried `key_b[KEY_MAX/8 + 1]`
buffer) advertises nothing, because the loop at virtual_controller.c:129
runs `i < KEY_MAX` and never tests bit KEY_MAX: the advertised set is
empty while the union of reported codes is {KEY_MAX}. -/
theorem C6_key_union_cex :
    envKeyMaxOnly.keyMask 0 KEY_MAX = true
    ∧ 0 < envKeyMaxOnly.key_fd 0
    ∧ (enumerate_key_devices envKeyMaxOnly).2 = []
    ∧ SetupOp.setKeyBit KEY_MAX ∉ (enumerate_key_devices envKeyMaxOnly).2 := by
  decide

set_option maxRecDepth 40000 in
/-- C6 (amended): under the contiguous slot filling
`iterate_input_devices` produces, a key code is advertised
(UI_SET_KEYBIT issued) by `enumerate_key_devices` exactly when it is
below KEY_MAX and some retained key device's capability bitmask reports
it — code KEY_MAX itself is never advertised even when reported, since
the per-device loop stops short of bit KEY_MAX; in particular key devices
reporting {2,3,30} and {30,31} advertise exactly the code set
{2,3,30,31}. -/
theorem C6_key_union :
    (∀ (env : KeyEnv) (m : Nat), m ≤ MAX_KEY_DEVS →
       (∀ k, k < MAX_KEY_DEVS → (0 < env.key_fd k ↔ k < m)) →
       ∀ i, SetupOp.setKeyBit i ∈ (enumerate_key_devices env).2
         ↔ (i < KEY_MAX ∧ ∃ k, k < m ∧ env.keyMask k i = true))
    ∧ (keyBitCodes (enumerate_key_devices envTwoKeys).2).dedup
        = [2, 3, 30, 31] := by
  constructor
  · intro env m hm hcontig i
    show SetupOp.setKeyBit i ∈
        (List.range (keyDevsRetained env)).flatMap (keyDevOps env) ↔ _
    rw [keyDevsRetained_eq env m hm hcontig, List.mem_flatMap]
    constructor
    · rintro ⟨k, hk, hop⟩
      obtain ⟨hik, hmask⟩ := (mem_keyDevOps_iff env k i).mp hop
      exact ⟨hik, k, List.mem_range.mp hk, hmask⟩
    · rintro ⟨hik, k, hkm, hmask⟩
      exact ⟨k, List.mem_range.mpr hkm,
        (mem_keyDevOps_iff env k i).mpr ⟨hik, hmask⟩⟩
  · decide

/-- C6 (witness): code 31, reported only by the second key device, is
advertised under the two-device configuration. -/
theorem C6_key_union_witness :
    SetupOp.setKeyBit 31 ∈ (enumerate_key_devices envTwoKeys).2 :=
  (C6_key_union.1 envTwoKeys 2 (by decide) (by decide) 31).mpr
    ⟨by decide, 1, by decide, rfl⟩

/-- Extracting key codes distributes over trace concatenation. -/
theorem keyBitCodes_append (a b : List SetupOp) :
    keyBitCodes (a ++ b) = keyBitCodes a ++ keyBitCodes b := by
  unfold keyBitCodes
  simp [List.flatMap_append]

/-- Extracting key codes distributes over a per-device trace union. -/
theorem keyBitCodes_flatMap {α : Type} (l : List α)
    (f : α → List SetupOp) :
    keyBitCodes (l.flatMap f) = l.flatMap fun a => keyBitCodes (f a) := by
  induction l with
  | nil => rfl
  | cons a t ih =>
    rw [List.flatMap_cons, keyBitCodes_append, ih, List.flatMap_cons]

/-- The key codes of one mask loop are exactly the codes the mask sets. -/
theorem keyBitCodes_mask (p : Nat → Bool) (l : List Nat) :
    keyBitCodes (l.flatMap fun i =>
        if p i then [SetupOp.setKeyBit i] else [])
      = l.filter p := by
  induction l with
  | nil => rfl
  | cons a t ih =>
    rw [List.flatMap_cons, keyBitCodes_append, ih, List.filter_cons]
    by_cases h : p a <;> simp [h, keyBitCodes]

set_option maxRecDepth 40000 in
/-- C7 (counterexample): the claim that the return value is the number of
distinct advertised key codes is false on the code: with key devices
reporting {2,3,30} and {30,31} the function returns 5 although only 4
distinct codes are advertised (code 30 is counted once per device). -/
theorem C7_key_return_cex :
    (enumerate_key_devices envTwoKeys).1 = 5
    ∧ (keyBitCodes (enumerate_key_devices envTwoKeys).2).dedup.length
        = 4 := by
  decide

set_option maxRecDepth 40000 in
/-- C7 (amended): `enumerate_key_devices` returns the total number of
(retained device, reported code) pairs — the number of UI_SET_KEYBIT
invocations counted with multiplicity — which is at least, but not in
general equal to, the number of distinct key codes advertised on the
virtual device. -/
theorem C7_key_return (env : KeyEnv) :
    (enumerate_key_devices env).1
      = (keyBitCodes (enumerate_key_devices env).2).length
    ∧ (keyBitCodes (enumerate_key_devices env).2).dedup.length
        ≤ (enumerate_key_devices env).1 := by
  have h1 : (enumerate_key_devices env).1
      = (keyBitCodes (enumerate_key_devices env).2).length := by
    show ((List.range (keyDevsRetained env)).map (keyDevCount env)).sum
        = (keyBitCodes (enumerate_key_devices env).2).length
    rw [show (enumerate_key_devices env).2
          = (List.range (keyDevsRetained env)).flatMap (keyDevOps env)
        from rfl]
    rw [keyBitCodes_flatMap, List.length_flatMap]
    refine congrArg List.sum (List.map_congr_left ?_)
    intro k _
    show keyDevCount env k = (keyBitCodes (keyDevOps env k)).length
    rw [show keyDevOps env k
          = (List.range KEY_MAX).flatMap fun i =>
              if env.keyMask k i then [SetupOp.setKeyBit i] else []
        from rfl]
    rw [keyBitCodes_mask]
    rfl
  exact ⟨h1, h1 ▸ List.Sublist.length_le (List.dedup_sublist _)⟩

/-- Every operation `enumerate_abs_device` issues is an axis operation. -/
theorem mem_enumerate_abs {env : AbsEnv} {fd : Int} {op : SetupOp}
    (h : op ∈ (enumerate_abs_device env fd).2) :
    ∃ j, op = SetupOp.setAbsBit j
         ∨ op = SetupOp.absSetup j (env.gabsInfo j) := by
  unfold enumerate_abs_device at h
  split_ifs at h
  · exact absurd h (List.not_mem_nil _)
  · exact absurd h (List.not_mem_nil _)
  · obtain ⟨j, _, hop⟩ := List.mem_flatMap.mp h
    exact ⟨j, mem_absAxisOps hop⟩

/-- Every operation one key-device iteration issues is a UI_SET_KEYBIT. -/
theorem mem_keyDevOps {env : KeyEnv} {k : Nat} {op : SetupOp}
    (h : op ∈ keyDevOps env k) : ∃ i, op = SetupOp.setKeyBit i := by
  unfold keyDevOps at h
  obtain ⟨i, _, hop⟩ := List.mem_flatMap.mp h
  split_ifs at hop
  · exact ⟨i, by simpa using hop⟩
  · exact absurd hop (List.not_mem_nil _)

/-- Every operation `enumerate_key_devices` issues is a UI_SET_KEYBIT. -/
theorem mem_enumerate_keys {env : KeyEnv} {op : SetupOp}
    (h : op ∈ (enumerate_key_devices env).2) :
    ∃ i, op = SetupOp.setKeyBit i := by
  obtain ⟨k, _, hop⟩ := List.mem_flatMap.mp h
  exact mem_keyDevOps hop

/-- The ABS conditional only issues the EV_ABS declaration and axis
operations. -/
theorem absBlock_mem {env : CreateEnv} {v : VDev} {op : SetupOp}
    (h : op ∈ (absBlock env v).2) :
    op = SetupOp.setEvBit EV_ABS
    ∨ ∃ j, op = SetupOp.setAbsBit j
           ∨ op = SetupOp.absSetup j (env.absEnv.gabsInfo j) := by
  unfold absBlock at h
  split_ifs at h
  · exact Or.inl (by simpa using h)
  · rcases List.mem_cons.mp h with h1 | h2
    · exact Or.inl h1
    · exact Or.inr (mem_enumerate_abs h2)
  · exact absurd h (List.not_mem_nil _)

/-- The KEY conditional only issues the EV_KEY declaration and
UI_SET_KEYBIT operations. -/
theorem keyBlock_mem {env : CreateEnv} {v : VDev} {op : SetupOp}
    (h : op ∈ (keyBlock env v).2) :
    op = SetupOp.setEvBit EV_KEY ∨ ∃ i, op = SetupOp.setKeyBit i := by
  unfold keyBlock at h
  split_ifs at h
  · exact Or.inl (by simpa using h)
  · rcases List.mem_cons.mp h with h1 | h2
    · exact Or.inl h1
    · exact Or.inr (mem_enumerate_keys h2)
  · rcases List.mem_cons.mp h with h1 | h2
    · exact Or.inl h1
    · exact Or.inr (mem_enumerate_keys h2)
  · exact absurd h (List.not_mem_nil _)

/-- With a retained FF descriptor and a successful EV_FF declaration, the
FF conditional issues the declaration and the six fixed effect-type bits
and records the fixed effect-slot maximum. -/
theorem ffBlock_pos {env : CreateEnv} {v : VDev}
    (hff : 0 < v.ff_fd) (h : (ffBlock env v).1 = 0) :
    (ffBlock env v).2 =
      ([SetupOp.setEvBit EV_FF, SetupOp.setFFBit FF_RUMBLE,
        SetupOp.setFFBit FF_GAIN, SetupOp.setFFBit FF_PERIODIC,
        SetupOp.setFFBit FF_SINE, SetupOp.setFFBit FF_TRIANGLE,
        SetupOp.setFFBit FF_SQUARE], MAX_FF_EFFECTS) := by
  unfold ffBlock at h ⊢
  rw [if_pos hff] at h ⊢
  split_ifs at h ⊢ with h2
  · exact absurd h h2
  · rfl

/-- Without a retained FF descriptor the FF conditional does nothing. -/
theorem ffBlock_neg {env : CreateEnv} {v : VDev}
    (hff : ¬ 0 < v.ff_fd) : ffBlock env v = (0, [], 0) := by
  unfold ffBlock
  rw [if_neg hff]

/-- On the successful path of `create_uinput_device` the trace is the
three conditional blocks followed by device setup and creation, and the
FF conditional succeeded. -/
theorem create_success (env : CreateEnv) (v : VDev)
    (h : (create_uinput_device env v).1 = 0) :
    (create_uinput_device env v).2
      = (absBlock env v).2 ++ (keyBlock env v).2 ++ (ffBlock env v).2.1
          ++ [SetupOp.devSetup (ffBlock env v).2.2, SetupOp.devCreate]
    ∧ (ffBlock env v).1 = 0 := by
  unfold create_uinput_device at h ⊢
  split_ifs at h ⊢
  · exact absurd h (by decide)
  · exact absurd h ‹(absBlock env v).1 ≠ 0›
  · exact absurd h ‹(keyBlock env v).1 ≠ 0›
  · exact absurd h ‹(ffBlock env v).1 ≠ 0›
  · exact absurd h ‹env.setupRet ≠ 0›
  · exact absurd h ‹env.createRet ≠ 0›
  · exact ⟨rfl, not_ne_iff.mp ‹¬ (ffBlock env v).1 ≠ 0›⟩

/-- C8: on every successful device creation, the EV_FF event-type bit is
declared if and only if a physical FF descriptor was retained; when it
was, the six fixed effect types and the effect-slot maximum of 16 are
advertised, and when it was not, no effect-type bit is set and the
effect-slot maximum submitted is 0.  Moreover the dispatcher issues an
operation directed at the physical FF descriptor only for an FF-control
event: an EV_UINPUT upload/erase request, or an EV_FF event arriving on
the virtual device descriptor — events the kernel produces only for a
device that advertised the FF capability. -/
theorem C8_ff_gating :
    (∀ (env : CreateEnv) (v : VDev),
       (create_uinput_device env v).1 = 0 →
       ((SetupOp.setEvBit EV_FF ∈ (create_uinput_device env v).2)
          ↔ 0 < v.ff_fd)
       ∧ (0 < v.ff_fd →
            SetupOp.setFFBit FF_RUMBLE ∈ (create_uinput_device env v).2
            ∧ SetupOp.setFFBit FF_GAIN ∈ (create_uinput_device env v).2
            ∧ SetupOp.setFFBit FF_PERIODIC ∈ (create_uinput_device env v).2
            ∧ SetupOp.setFFBit FF_SINE ∈ (create_uinput_device env v).2
            ∧ SetupOp.setFFBit FF_TRIANGLE ∈ (create_uinput_device env v).2
            ∧ SetupOp.setFFBit FF_SQUARE ∈ (create_uinput_device env v).2
            ∧ SetupOp.devSetup MAX_FF_EFFECTS ∈
                (create_uinput_device env v).2)
       ∧ (v.ff_fd ≤ 0 →
            SetupOp.devSetup 0 ∈ (create_uinput_device env v).2
            ∧ ∀ t, SetupOp.setFFBit t ∉ (create_uinput_device env v).2))
    ∧ (∀ (denv : DispatchEnv) (u f : Int) (op : SysOp),
         op ∈ parse_ev_incoming denv u f → op.targetsPhysFF = true →
         denv.ev.type = EV_UINPUT ∨ (denv.ev.type = EV_FF ∧ u = f)) := by
  constructor
  · intro env v h
    obtain ⟨htr, hff0⟩ := create_success env v h
    rw [htr]
    by_cases hff : 0 < v.ff_fd
    · rw [ffBlock_pos hff hff0]
      refine ⟨by simp [hff], fun _ => by simp,
              fun hc => absurd hff (not_lt.mpr hc)⟩
    · rw [ffBlock_neg hff]
      refine ⟨?_, fun hc => absurd hc hff, fun _ => ⟨by simp, ?_⟩⟩
      · simp only [hff, iff_false]
        intro hmem
        simp only [List.mem_append, List.mem_cons, List.mem_singleton,
          List.not_mem_nil, or_false, false_or] at hmem
        rcases hmem with (hA | hK) | h1 | h1
        · rcases absBlock_mem hA with h1 | ⟨j, h1 | h1⟩ <;>
            simp [EV_FF, EV_ABS] at h1
        · rcases keyBlock_mem hK with h1 | ⟨i, h1⟩ <;>
            simp [EV_FF, EV_KEY] at h1
        · simp at h1
        · simp at h1
      · intro t hmem
        simp only [List.mem_append, List.mem_cons, List.mem_singleton,
          List.not_mem_nil, or_false, false_or] at hmem
        rcases hmem with (hA | hK) | h1 | h1
        · rcases absBlock_mem hA with h1 | ⟨j, h1 | h1⟩ <;> simp at h1
        · rcases keyBlock_mem hK with h1 | ⟨i, h1⟩ <;> simp at h1
        · simp at h1
        · simp at h1
  · intro denv u f op hmem htarget
    unfold parse_ev_incoming at hmem
    split_ifs at hmem
    · obtain rfl : op = SysOp.writeVirtual denv.ev := by simpa using hmem
      simp [SysOp.targetsPhysFF] at htarget
    · exact absurd hmem (List.not_mem_nil _)
    · exact Or.inl ‹denv.ev.type = EV_UINPUT›
    · exact Or.inl ‹denv.ev.type = EV_UINPUT›
    · exact absurd hmem (List.not_mem_nil _)
    · exact Or.inr ⟨‹denv.ev.type = EV_FF›, ‹u = f›⟩
    · exact absurd hmem (List.not_mem_nil _)
    · exact absurd hmem (List.not_mem_nil _)
    · exact absurd hmem (List.not_mem_nil _)

/-- C8 (witness): with only a physical FF descriptor retained and every
setup ioctl succeeding, creation succeeds, the EV_FF bit is declared and
the 16-slot maximum is submitted. -/
theorem C8_ff_gating_witness :
    SetupOp.setEvBit EV_FF ∈ (create_uinput_device createEnvOk vdevFFOnly).2
    ∧ SetupOp.devSetup MAX_FF_EFFECTS ∈
        (create_uinput_device createEnvOk vdevFFOnly).2 :=
  ⟨((C8_ff_gating.1 createEnvOk vdevFFOnly (by decide)).1).mpr (by decide),
   ((C8_ff_gating.1 createEnvOk vdevFFOnly (by decide)).2.1
      (by decide)).2.2.2.2.2.2⟩

set_option maxRecDepth 40000 in
/-- C10: for a scan in which a single node carries an allowlisted name,
the returned count is incremented once per role binding, not once per
node: one for FF support, one for ABS support and one for KEY support.
In particular a node with FF and ABS contributes 2, and one with FF, ABS
and KEY contributes 3, exceeding the single matching node. -/
theorem C10_scan_count (nm : String) (h : nm ∈ input_devs)
    (ff hasAbs hasKey : Bool) :
    iterate_input_devices (singleNode nm ff hasAbs hasKey)
      = (if ff then 1 else 0) + (if hasAbs then 1 else 0)
          + (if hasKey then 1 else 0) := by
  fin_cases h <;> cases ff <;> cases hasAbs <;> cases hasKey <;> decide

/-- C10 (witness): an allowlisted node supporting FF and ABS yields a
count of 2, and one supporting FF, ABS and KEY yields 3, although only
one node matched the allowlist. -/
theorem C10_scan_count_witness :
    iterate_input_devices (singleNode "pwm-vibrator" true true false) = 2
    ∧ iterate_input_devices (singleNode "pwm-vibrator" true true true)
        = 3 :=
  ⟨C10_scan_count "pwm-vibrator" (by decide) true true false,
   C10_scan_count "pwm-vibrator" (by decide) true true true⟩
